import Mathlib

/-!
Verification development for the build-orchestration pipeline in
src/build.py. The script is embedded shallowly: each stage of the
`__main__` block becomes a Lean function that threads the list of
external-effect events (the trace) and an `Except` result, and the
pure data manipulations (package-list parsing, flavor lookup, name
construction, cleanup of the embedded source copy) become plain Lean
functions. External tool exit codes and filesystem contents are
supplied by a `World` record, so a run of the pipeline is a pure
function of the command-line arguments and that record.
-/

set_option autoImplicit false

namespace Build

/-- Python truthiness of an optional string, as used by
`builds.get("customfiles")`, `builds.get("script")` and
`if packages_file_path:` in src/build.py: `None` and the empty
string are falsy. -/
def pyTruthy : Option String → Bool
  | none => false
  | some s => !(s == "")

/-- Python `a or b` for an optional string `a` (as in
`args.prefix or ...` and `repo_parts.fragment or ...`,
src/build.py lines 120 and 279): the empty string and `None`
both fall through to `b`. -/
def pyOr (a : Option String) (b : String) : String :=
  match a with
  | none => b
  | some s => if s = "" then b else s

/-- Python `str.strip()` with no argument, as used on package-list
lines at src/build.py lines 208 and 213 and by the templating
engine on placeholder names: drop leading and trailing whitespace. -/
def pyStrip (s : String) : String :=
  String.mk (((s.data.dropWhile Char.isWhitespace).reverse.dropWhile Char.isWhitespace).reverse)

/-- Python `", ".join(...)` over a list of strings, as used in the
flavor-not-found message at src/build.py line 137. -/
def joinComma : List String → String
  | [] => ""
  | [x] => x
  | x :: y :: xs => x ++ ", " ++ joinComma (y :: xs)

/-- A flavor is a flat mapping from variable name to value
(src/build.py: `builds["flavors"][args.flavor]`). -/
abbrev FlavorVars := List (String × String)

/-- The parsed builds.yaml manifest (src/build.py lines 126-141,
167, 187, 197): a flavors mapping plus the optional manifest-level
settings read with `builds.get`. -/
structure Builds where
  flavors : List (String × FlavorVars)
  name : Option String
  app_dir : Option String
  customfiles : Option String
  packages : Option String
  script : Option String

/-- The command-line arguments of src/build.py (lines 55-66), with
the URL fragments already split off as `urlparse`/`urldefrag` do. -/
structure Args where
  repoScheme : String
  repoFragment : String
  inPlace : Bool
  flavorArg : String
  force : Bool
  isoFlag : Bool
  customfilesScheme : String
  customfilesFragment : String
  prefixArg : Option String

/-- The environment a run interacts with: the exit status of every
external command the script invokes, and the contents of the files
it reads. `buildsFile = none` models FileNotFoundError for
builds.yaml, `some none` a YAML parse error, and `packagesFile =
none` models FileNotFoundError for the manifest-named package list. -/
structure World where
  hasDotGit : Bool
  fetchExit : Int
  cloneExit : Int
  dirtyExit : Int
  checkoutExit : Int
  gitHash : String
  dateStr : String
  buildsFile : Option (Option Builds)
  cpCustomfilesSrcExit : Int
  cloneCustomfilesExit : Int
  checkoutCustomfilesExit : Int
  cpCustomfilesDirExit : Int
  cpOverlayExit : Int
  customfilesPaths : List String
  scriptExit : Int
  packagesFile : Option (List String)
  basePackages : List String
  pkgFetchExit : String → Int
  mdExists : Bool
  makeIsoExit : Int

/-- The external effects the script performs, in order. Each
constructor corresponds to one `subprocess.call`, `os.mkdir`,
`os.makedirs`, `open` or file write in src/build.py. -/
inductive Ev where
  | makedirsGit
  | gitFetch
  | gitClone
  | dirtyCheck
  | gitCheckout
  | revParse
  | openBuilds
  | cpCustomfilesSrc
  | cloneCustomfilesSrc
  | checkoutCustomfiles
  | cpCustomfilesDir
  | cpOverlay
  | renderFile (path : String)
  | runScript
  | mkdirPackages
  | openPackagesFile
  | pkgFetch (name : String)
  | makedirsAppDir
  | cpAppSrc
  | rmPath (path : String)
  | mdSetup
  | makeClean
  | rmIsos
  | renameAllDir
  | makeIso
  | mvIso
  | renderOvf (name : String)
  | tarOva (format : String) (name : String) (entries : List String)
  | mvIsoOut (name : String)
  deriving DecidableEq, Repr

/-- The fatal-error outcomes of src/build.py, one constructor per
`fatal_error` / uncaught-exception site, carrying the data that the
printed message interpolates. `isoPrefixTypeError` models the
TypeError raised at line 288 when `args.prefix` is `None` and the
script evaluates `args.prefix + ".iso"`. -/
inductive Err where
  | inPlaceRequiresFile
  | acquisitionFetch
  | acquisitionClone
  | dirtyWorkingTree
  | checkoutFailed (fragment : String)
  | manifestNotFound
  | manifestParse
  | flavorNotFound (requested : String) (choices : List String)
  | customfilesCpSrc
  | customfilesClone
  | customfilesCheckout
  | customfilesCpDir
  | customfilesCpOverlay
  | scriptFailed
  | packageListMissing (path : String)
  | packageFetch (pkg : String)
  | isoPrefixTypeError
  deriving DecidableEq, Repr

/-- The human-readable message printed on the error stream for each
fatal outcome, transliterated from the format strings in
src/build.py (the single-quote characters that the Python format
strings place around interpolated values are omitted here). -/
def errMessage : Err → String
  | .inPlaceRequiresFile =>
      "If you use the -in-place/-I option, the --repo/-r argument must start with file://"
  | .acquisitionFetch => "Could not fetch the repo"
  | .acquisitionClone => "Could not clone the repo"
  | .dirtyWorkingTree =>
      "There are untracked changes in the repo. Use the --force option if you really want to continue the build."
  | .checkoutFailed f => "Could not checkout the version of the repo " ++ f
  | .manifestNotFound => "Did not find a builds.yaml file in the directory"
  | .manifestParse => "YAMLError"
  | .flavorNotFound r cs =>
      "Flavor with name " ++ r ++ " not found. Choices are: " ++ joinComma cs
  | .customfilesCpSrc => "Could not cp customfiles from the source"
  | .customfilesClone => "Tried to clone the customfiles repo and it blew up"
  | .customfilesCheckout => "Tried to perform a git checkout and it blew up"
  | .customfilesCpDir => "Could not cp customfiles"
  | .customfilesCpOverlay => "Could not cp customfiles from the git repo"
  | .scriptFailed => "The build script blew up."
  | .packageListMissing p =>
      "builds.yaml claimed there was a packages file named " ++ p ++
      " in the source code. There was not. Check the builds.yaml file to make sure the packages property has the correct file path, and check the source code to make sure that file exists."
  | .packageFetch pkg => "Could not install the package " ++ pkg
  | .isoPrefixTypeError =>
      "TypeError: unsupported operand type(s) for +: NoneType and str"

/-! ### Package-set resolution (src/build.py lines 197-216)

The script accumulates package names into a Python `set`. We model
the set as an insertion-ordered duplicate-free list; `addPkgList`
is the loop `for package in f: package = package.strip(); if
package: packages.add(package)` (and the identical comprehension
over packages.txt at line 213). -/

/-- One pass of the package-list reading loop: strip each line,
skip blanks, add to the set (ignoring duplicates). -/
def addPkgList (s : List String) (lines : List String) : List String :=
  lines.foldl
    (fun acc l =>
      let p := pyStrip l
      if p = "" then acc else if p ∈ acc then acc else acc ++ [p])
    s

/-- The resolved package set of a run: the optional application
package list (read first, src/build.py lines 201-210) unioned with
the base packages.txt list (line 213). -/
def resolvePackages (appLines : Option (List String)) (baseLines : List String) : List String :=
  addPkgList (match appLines with | some ls => addPkgList [] ls | none => []) baseLines

/-- The set of package names a single list denotes per the spec:
each line trimmed, blank lines dropped, duplicates collapsed. -/
def parsedSet : List String → Finset String
  | [] => ∅
  | l :: ls => if pyStrip l = "" then parsedSet ls else insert (pyStrip l) (parsedSet ls)

/-! ### Manifest resolution (src/build.py lines 135-138) -/

/-- The flavor lookup of src/build.py lines 135-138:
`if args.flavor not in flavors: fatal_error("Flavor with name ...
Choices are: " + ", ".join(flavors))` else `builds["flavors"][args.flavor]`.
The error carries the requested name and the full list of keys of
the flavors mapping, in mapping order, exactly as `", ".join`
iterates them. -/
def lookupFlavor (flavors : List (String × FlavorVars)) (requested : String) :
    Except Err FlavorVars :=
  match flavors.find? (fun kv => kv.1 == requested) with
  | some kv => Except.ok kv.2
  | none => Except.error (Err.flavorNotFound requested (flavors.map Prod.fst))

/-! ### Artifact naming (src/build.py lines 277-288) -/

/-- The OVA file name of src/build.py line 279:
`(args.prefix or ".".join([app_name, args.flavor, version_name])) + ".ova"`. -/
def ovaName (prefixArg : Option String) (appName flavorName versionName : String) : String :=
  pyOr prefixArg (String.intercalate "." [appName, flavorName, versionName]) ++ ".ova"

/-! ### Cleanup of the embedded source copy (src/build.py lines 227-234) -/

/-- The `delete_files` set of src/build.py lines 227-231, as paths
relative to the embedded copy of the source tree: `.git`,
`builds.yaml`, and the overlay directory when the manifest
configures one (the falsy-guard `if builds.get("customfiles")`
means an absent or empty setting contributes nothing; the loop at
line 233 skips the empty-string placeholder). -/
def deleteTargets (overlayCfg : Option String) : List String :=
  [".git", "builds.yaml"] ++ (if pyTruthy overlayCfg then [overlayCfg.getD ""] else [])

/-- The embedded source copy after the `rm -rf` loop of src/build.py
lines 232-234: every path equal to a delete target, or lying under
one of them, is gone. -/
def cleanupEmbedded (srcPaths : List String) (overlayCfg : Option String) : List String :=
  srcPaths.filter
    (fun p => !((deleteTargets overlayCfg).any
      (fun d => p == d || (d ++ "/").data.isPrefixOf p.data)))

/-! ### Template rendering

Modelled from the spec: the templating engine (Jinja2) is an
external collaborator, not code under src/. Per the spec it
substitutes the flavor variables into the placeholders of each
file ("performs variable substitution over every file in that
tree"), an undefined variable renders as the empty string, and
"non-template files containing no template syntax render unchanged
(render is a structural no-op for plain text)". `render` is that
single-pass substitution over the characters of a file. -/

/-- Modelled from the spec: variable lookup in the merged template
context; an unknown variable renders as the empty string. -/
def lookupVar (ctx : List (String × String)) (k : String) : String :=
  match ctx.find? (fun kv => kv.1 == k) with
  | some kv => kv.2
  | none => ""

/-- Modelled from the spec: scan for the closing brace pair of a
placeholder, returning the name characters and the remainder. -/
def findClose : List Char → Option (List Char × List Char)
  | '\x7d' :: '\x7d' :: rest => some ([], rest)
  | c :: rest => (findClose rest).map (fun pr => (c :: pr.1, pr.2))
  | [] => none

/-- Modelled from the spec: one fuel-bounded substitution pass over
the characters of a file. An opening brace pair starts a
placeholder; its (trimmed) name is replaced by the variable value;
an unclosed opening pair is passed through unchanged. The fuel is
always instantiated with the length of the input, which the pass
never exceeds because every step consumes at least one character. -/
def renderF (ctx : List (String × String)) : Nat → List Char → List Char
  | 0, l => l
  | _ + 1, [] => []
  | fuel + 1, c :: rest =>
    if c == '\x7b' && rest.head? == some '\x7b' then
      match findClose rest.tail with
      | some pr => (lookupVar ctx (pyStrip (String.mk pr.1))).data ++ renderF ctx fuel pr.2
      | none => c :: renderF ctx fuel rest
    else c :: renderF ctx fuel rest

/-- Modelled from the spec: render one file with the merged
variable context (src/build.py `render_to_file`, without the
filesystem plumbing). -/
def render (ctx : List (String × String)) (s : String) : String :=
  String.mk (renderF ctx s.data.length s.data)

/-- Whether a character sequence still contains template-open
syntax (an adjacent pair of opening braces). -/
def hasOpen : List Char → Bool
  | [] => false
  | c :: rest => (c == '\x7b' && rest.head? == some '\x7b') || hasOpen rest

/-! ### Customfiles tree merge (src/build.py lines 161-182)

The two `cp -r` invocations at lines 163 and 168 copy the base
customfiles tree and then the application overlay over it, the
overlay overwriting same-path entries; the walk at lines 172-182
then renders every file in place. A tree is modelled as an
association list from relative path to file content. -/

/-- Look up the content of a file in a tree. -/
def lookupTree (tree : List (String × String)) (p : String) : Option String :=
  (tree.find? (fun e => e.1 == p)).map Prod.snd

/-- The tree after the two copies: the overlay entry wins on a path
conflict, otherwise the base entry survives. -/
def mergeTree (base overlay : List (String × String)) (p : String) : Option String :=
  match lookupTree overlay p with
  | some c => some c
  | none => lookupTree base p

/-- The tree after the render walk: every file of the merged tree,
rendered in place with the merged variable context. -/
def renderedTree (ctx : List (String × String)) (base overlay : List (String × String))
    (p : String) : Option String :=
  (mergeTree base overlay p).map (render ctx)

/-! ### The pipeline (src/build.py `__main__`, lines 52-288)

Each stage function appends the events it performs to the trace
accumulated so far and either calls the next stage or stops with
the fatal error the script would exit with. A `subprocess.call`
whose return value the script inspects becomes a guarded branch;
one whose return value the script discards becomes an unguarded
event. -/

/-- Image assembly and artifact packaging, src/build.py lines
221-288. Note that none of the calls in this region is
status-checked by the script: the `make iso` invocation (line 266),
the ISO rename (line 282) and the tar invocation (line 285) run
unconditionally, and the run only fails here if `--iso` was given
without a prefix (the TypeError at line 288). -/
def stageAssemble (args : Args) (w : World) (builds : Builds)
    (appName versionName : String) (t : List Ev) : List Ev × Except Err Unit :=
  -- lines 221-234: embed the source, then delete .git / builds.yaml / overlay
  let t := t ++ [Ev.makedirsAppDir, Ev.cpAppSrc]
      ++ (deleteTargets builds.customfiles).map Ev.rmPath
  -- lines 241-247: attach the base media unless the device already exists
  let t := if w.mdExists then t else t ++ [Ev.mdSetup]
  -- lines 250-260: make clean, rm -f *.iso, rename packages/All to packages/packages
  let t := t ++ [Ev.makeClean, Ev.rmIsos, Ev.renameAllDir]
  -- lines 266-274: make iso; the exit status is not examined
  let t := t ++ [Ev.makeIso]
  -- lines 277-285: rename the ISO, render the descriptor, tar the OVA
  let ova := ovaName args.prefixArg appName args.flavorArg versionName
  let t := t ++ [Ev.mvIso, Ev.renderOvf "template.ovf",
      Ev.tarOva "ustar" ova ["template.ovf", "iso.iso"]]
  -- lines 287-288: optionally keep the bare ISO; args.prefix + ".iso"
  -- raises TypeError when no prefix was supplied
  if args.isoFlag then
    match args.prefixArg with
    | some p => (t ++ [Ev.mvIsoOut (p ++ ".iso")], Except.ok ())
    | none => (t, Except.error Err.isoPrefixTypeError)
  else (t, Except.ok ())

/-- The package-fetch loop, src/build.py lines 215-218: fetch each
resolved package, aborting on the first non-zero exit. -/
def fetchLoop (args : Args) (w : World) (builds : Builds)
    (appName versionName : String) (t : List Ev) : List String → List Ev × Except Err Unit
  | [] => stageAssemble args w builds appName versionName t
  | pkg :: rest =>
    let t := t ++ [Ev.pkgFetch pkg]
    if w.pkgFetchExit pkg = 0 then
      fetchLoop args w builds appName versionName t rest
    else (t, Except.error (Err.packageFetch pkg))

/-- Package resolution, src/build.py lines 197-218: create the
packages directory, read the manifest-named package list if one is
configured (a missing file is fatal), union in the base list, then
fetch every package. -/
def stagePackages (args : Args) (w : World) (builds : Builds)
    (appName versionName : String) (t : List Ev) : List Ev × Except Err Unit :=
  let t := t ++ [Ev.mkdirPackages]
  if pyTruthy builds.packages then
    let t := t ++ [Ev.openPackagesFile]
    match w.packagesFile with
    | none => (t, Except.error (Err.packageListMissing (builds.packages.getD "")))
    | some appLines =>
      fetchLoop args w builds appName versionName t
        (resolvePackages (some appLines) w.basePackages)
  else
    fetchLoop args w builds appName versionName t
      (resolvePackages none w.basePackages)

/-- The optional application build script, src/build.py lines
187-191. -/
def stageScript (args : Args) (w : World) (builds : Builds)
    (appName versionName : String) (t : List Ev) : List Ev × Except Err Unit :=
  if pyTruthy builds.script then
    let t := t ++ [Ev.runScript]
    if w.scriptExit = 0 then stagePackages args w builds appName versionName t
    else (t, Except.error Err.scriptFailed)
  else stagePackages args w builds appName versionName t

/-- Customfiles assembly and rendering, src/build.py lines 146-182:
materialize the customfiles source (cp for file URLs, clone
otherwise), check out the fragment if one was given, copy the base
tree, copy the overlay over it if configured, then render every
file of the walk. -/
def stageCustomfiles (args : Args) (w : World) (builds : Builds)
    (appName versionName : String) (t : List Ev) : List Ev × Except Err Unit :=
  let acquire : List Ev × Option Err :=
    if args.customfilesScheme = "file" then
      (t ++ [Ev.cpCustomfilesSrc],
        if w.cpCustomfilesSrcExit = 0 then none else some Err.customfilesCpSrc)
    else
      (t ++ [Ev.cloneCustomfilesSrc],
        if w.cloneCustomfilesExit = 0 then none else some Err.customfilesClone)
  match acquire with
  | (t, some e) => (t, Except.error e)
  | (t, none) =>
    let checkout : List Ev × Option Err :=
      if args.customfilesFragment ≠ "" then
        (t ++ [Ev.checkoutCustomfiles],
          if w.checkoutCustomfilesExit = 0 then none else some Err.customfilesCheckout)
      else (t, none)
    match checkout with
    | (t, some e) => (t, Except.error e)
    | (t, none) =>
      let t := t ++ [Ev.cpCustomfilesDir]
      if w.cpCustomfilesDirExit ≠ 0 then (t, Except.error Err.customfilesCpDir)
      else
        let overlay : List Ev × Option Err :=
          if pyTruthy builds.customfiles then
            (t ++ [Ev.cpOverlay],
              if w.cpOverlayExit = 0 then none else some Err.customfilesCpOverlay)
          else (t, none)
        match overlay with
        | (t, some e) => (t, Except.error e)
        | (t, none) =>
          let t := t ++ w.customfilesPaths.map Ev.renderFile
          stageScript args w builds appName versionName t

/-- Manifest resolution, src/build.py lines 125-141: open and parse
builds.yaml, look up the requested flavor, read the manifest-level
settings. -/
def stageManifest (args : Args) (w : World) (versionName : String)
    (t : List Ev) : List Ev × Except Err Unit :=
  let t := t ++ [Ev.openBuilds]
  match w.buildsFile with
  | none => (t, Except.error Err.manifestNotFound)
  | some none => (t, Except.error Err.manifestParse)
  | some (some builds) =>
    match lookupFlavor builds.flavors args.flavorArg with
    | Except.error e => (t, Except.error e)
    | Except.ok _flavor =>
      let appName := builds.name.getD "unnamed"
      stageCustomfiles args w builds appName versionName t

/-- Version computation, src/build.py lines 115-120: record the
short hash (the rev-parse status is not checked) and compute
`version_name = repo_parts.fragment or (timestamp + git_hash)`. -/
def stageVersion (args : Args) (w : World) (t : List Ev) : List Ev × Except Err Unit :=
  let t := t ++ [Ev.revParse]
  let versionName := pyOr (some args.repoFragment) (w.dateStr ++ w.gitHash)
  stageManifest args w versionName t

/-- Revision checkout, src/build.py lines 108-112: check out the
URL fragment if one was given. -/
def stageCheckout (args : Args) (w : World) (t : List Ev) : List Ev × Except Err Unit :=
  if args.repoFragment ≠ "" then
    let t := t ++ [Ev.gitCheckout]
    if w.checkoutExit = 0 then stageVersion args w t
    else (t, Except.error (Err.checkoutFailed args.repoFragment))
  else stageVersion args w t

/-- The dirty-working-tree check, src/build.py lines 102-105: only
for in-place builds, and overridable with --force. -/
def stageDirty (args : Args) (w : World) (t : List Ev) : List Ev × Except Err Unit :=
  if args.inPlace then
    let t := t ++ [Ev.dirtyCheck]
    if w.dirtyExit ≠ 0 ∧ args.force = false then (t, Except.error Err.dirtyWorkingTree)
    else stageCheckout args w t
  else stageCheckout args w t

/-- The whole pipeline, src/build.py lines 52-288: the in-place
scheme check (lines 72-73), the git-dir creation (lines 85-88),
clone or fetch (lines 91-100), then the stage chain. -/
def pipeline (args : Args) (w : World) : List Ev × Except Err Unit :=
  if args.inPlace ∧ args.repoScheme ≠ "file" then
    ([], Except.error Err.inPlaceRequiresFile)
  else
    let t : List Ev := if args.inPlace then [] else [Ev.makedirsGit]
    if w.hasDotGit then
      let t := t ++ [Ev.gitFetch]
      if w.fetchExit = 0 then stageDirty args w t
      else (t, Except.error Err.acquisitionFetch)
    else
      let t := t ++ [Ev.gitClone]
      if w.cloneExit = 0 then stageDirty args w t
      else (t, Except.error Err.acquisitionClone)

/-! ### Concrete runs used by the claim theorems and witnesses -/

/-- An example manifest: application `foo` with a single flavor
`bar`, no optional settings. -/
def buildsEx : Builds :=
  { flavors := [("bar", [("hostname", "web1")])]
    name := some "foo"
    app_dir := none
    customfiles := none
    packages := none
    script := none }

/-- An example command line: a file URL pinned at tag `v1.2`,
flavor `bar`, no output prefix. -/
def argsEx : Args :=
  { repoScheme := "file"
    repoFragment := "v1.2"
    inPlace := false
    flavorArg := "bar"
    force := false
    isoFlag := false
    customfilesScheme := "file"
    customfilesFragment := ""
    prefixArg := none }

/-- An example environment in which every external command succeeds
except the `make iso` invocation, whose exit status the script
never inspects. -/
def worldEx : World :=
  { hasDotGit := false
    fetchExit := 0
    cloneExit := 0
    dirtyExit := 0
    checkoutExit := 0
    gitHash := "abc1234"
    dateStr := "2026-10-12-"
    buildsFile := some (some buildsEx)
    cpCustomfilesSrcExit := 0
    cloneCustomfilesExit := 0
    checkoutCustomfilesExit := 0
    cpCustomfilesDirExit := 0
    cpOverlayExit := 0
    customfilesPaths := ["etc/rc.conf"]
    scriptExit := 0
    packagesFile := none
    basePackages := ["pkgtool"]
    pkgFetchExit := fun _ => 0
    mdExists := true
    makeIsoExit := 1 }

/-- The example command line with the in-place flag set and no
force override. -/
def argsDirty : Args := { argsEx with inPlace := true }

/-- The example environment with an existing checkout that has
uncommitted changes (`git diff-index` exits non-zero). -/
def worldDirty : World := { worldEx with hasDotGit := true, dirtyExit := 1 }

/-- The example manifest naming a package list that scenario C
makes missing from the source tree. -/
def buildsPkgs : Builds := { buildsEx with packages := some "pkglist.txt" }

/-- The example command line with the ISO-retention flag set and
still no output prefix. -/
def argsIso : Args := { argsEx with isoFlag := true }

/-- The template context of the non-idempotence counterexample: the
value of `a` itself contains placeholder syntax for `b`. -/
def ctxNested : List (String × String) := [("a", "\x7b\x7bb\x7d\x7d"), ("b", "x")]

/-- The template context of the idempotence witness. -/
def ctxPlain : List (String × String) := [("hostname", "web1")]

/-! ## Helper lemmas -/

/-- Membership in the set denoted by one package list: exactly the
nonempty trimmed lines. -/
theorem mem_parsedSet {x : String} : ∀ {ls : List String},
    x ∈ parsedSet ls ↔ ∃ l ∈ ls, pyStrip l = x ∧ x ≠ "" := by
  intro ls
  induction ls with
  | nil => simp [parsedSet]
  | cons l ls ih =>
    by_cases h : pyStrip l = ""
    · rw [parsedSet, if_pos h, ih]
      constructor
      · rintro ⟨m, hm, hx⟩
        exact ⟨m, List.mem_cons_of_mem l hm, hx⟩
      · rintro ⟨m, hm, hx⟩
        rcases List.mem_cons.mp hm with rfl | hm2
        · exact absurd (hx.1.symm.trans h) hx.2
        · exact ⟨m, hm2, hx⟩
    · rw [parsedSet, if_neg h, Finset.mem_insert, ih]
      constructor
      · rintro (rfl | ⟨m, hm, hx⟩)
        · exact ⟨l, List.mem_cons_self l ls, rfl, h⟩
        · exact ⟨m, List.mem_cons_of_mem l hm, hx⟩
      · rintro ⟨m, hm, hx⟩
        rcases List.mem_cons.mp hm with rfl | hm2
        · exact Or.inl hx.1.symm
        · exact Or.inr ⟨m, hm2, hx⟩

/-- Membership in the accumulated package set: the starting set
unioned with the set the lines denote. -/
theorem mem_addPkgList {x : String} : ∀ {ls s : List String},
    x ∈ addPkgList s ls ↔ x ∈ s ∨ x ∈ parsedSet ls := by
  intro ls
  induction ls with
  | nil => intro s; simp [addPkgList, parsedSet]
  | cons l ls ih =>
    intro s
    have hstep : addPkgList s (l :: ls)
        = addPkgList
            (if pyStrip l = "" then s else if pyStrip l ∈ s then s else s ++ [pyStrip l]) ls := by
      simp only [addPkgList, List.foldl_cons]
    rw [hstep, ih]
    by_cases h : pyStrip l = ""
    · rw [if_pos h, parsedSet, if_pos h]
    · rw [if_neg h, parsedSet, if_neg h, Finset.mem_insert]
      by_cases hmem : pyStrip l ∈ s
      · rw [if_pos hmem]
        constructor
        · rintro (hs | hp)
          · exact Or.inl hs
          · exact Or.inr (Or.inr hp)
        · rintro (hs | rfl | hp)
          · exact Or.inl hs
          · exact Or.inl hmem
          · exact Or.inr hp
      · rw [if_neg hmem]
        constructor
        · rintro (hs | hp)
          · rcases List.mem_append.mp hs with hs2 | hs2
            · exact Or.inl hs2
            · exact Or.inr (Or.inl (List.mem_singleton.mp hs2))
          · exact Or.inr (Or.inr hp)
        · rintro (hs | rfl | hp)
          · exact Or.inl (List.mem_append_left _ hs)
          · exact Or.inl (List.mem_append_right _ (List.mem_singleton.mpr rfl))
          · exact Or.inr hp

/-- Every element of a joined list occurs verbatim in the joined
string. -/
theorem joinComma_contains {c : String} : ∀ {l : List String}, c ∈ l →
    ∃ pre post, (joinComma l).data = pre ++ c.data ++ post := by
  intro l
  induction l with
  | nil => intro h; cases h
  | cons x xs ih =>
    intro h
    cases xs with
    | nil =>
      have hc : c = x := by simpa using h
      subst hc
      exact ⟨[], [], by simp [joinComma]⟩
    | cons y ys =>
      rcases List.mem_cons.mp h with rfl | h2
      · refine ⟨[], (", " ++ joinComma (y :: ys)).data, ?_⟩
        simp [joinComma]
      · rcases ih h2 with ⟨p, q, hpq⟩
        refine ⟨(x ++ ", ").data ++ p, q, ?_⟩
        simp [joinComma, hpq]

/-- The substitution pass leaves the empty character sequence
alone at any fuel. -/
theorem renderF_nil (ctx : List (String × String)) (fuel : Nat) :
    renderF ctx fuel [] = [] := by
  cases fuel <;> rfl

/-- The substitution pass is the identity on character sequences
containing no template-open syntax, at any fuel: the structural
no-op for plain text that the spec states. -/
theorem renderF_no_open (ctx : List (String × String)) : ∀ (fuel : Nat) (l : List Char),
    hasOpen l = false → renderF ctx fuel l = l := by
  intro fuel
  induction fuel with
  | zero => intro l _; rfl
  | succ fuel ih =>
    intro l h
    cases l with
    | nil => rfl
    | cons c rest =>
      rw [hasOpen, Bool.or_eq_false_iff] at h
      rw [renderF, if_neg (by simp [h.1]), ih rest h.2]

/-- Rendering a file containing no template-open syntax returns it
unchanged, byte for byte. -/
theorem render_noop_of_plain (ctx : List (String × String)) (s : String)
    (h : hasOpen s.data = false) : render ctx s = s := by
  rw [render, renderF_no_open ctx s.data.length s.data h]

/-! ## Claim theorems -/

/-- C1: the claim states that a non-zero exit of the image-builder
invocation (make iso) fails the pipeline fatally before the ISO
rename, descriptor render and archive steps. The code does not do
this: the exit status of the make iso call (src/build.py line 266)
is never inspected. In the run below the make iso invocation exits
1, yet the pipeline result is success and the rename, render and
archive events all occur. -/
theorem c1_make_iso_status_ignored :
    worldEx.makeIsoExit = 1
    ∧ (pipeline argsEx worldEx).2 = Except.ok ()
    ∧ Ev.makeIso ∈ (pipeline argsEx worldEx).1
    ∧ Ev.mvIso ∈ (pipeline argsEx worldEx).1
    ∧ Ev.renderOvf "template.ovf" ∈ (pipeline argsEx worldEx).1
    ∧ Ev.tarOva "ustar" "foo.bar.v1.2.ova" ["template.ovf", "iso.iso"]
        ∈ (pipeline argsEx worldEx).1 := by
  refine ⟨rfl, rfl, ?_, ?_, ?_, ?_⟩ <;> decide

/-- C3: the resolved package set is exactly the set union of the
two package lists with lines trimmed, blanks dropped and
duplicates collapsed; merging the same list again adds nothing,
and the resulting set does not depend on the order in which the
two lists are read. -/
theorem c3_package_set_union (app base : List String) :
    (resolvePackages (some app) base).toFinset = parsedSet app ∪ parsedSet base
    ∧ (resolvePackages none base).toFinset = parsedSet base
    ∧ (addPkgList (addPkgList [] app) app).toFinset = (addPkgList [] app).toFinset
    ∧ (addPkgList (addPkgList [] app) base).toFinset
        = (addPkgList (addPkgList [] base) app).toFinset := by
  refine ⟨?_, ?_, ?_, ?_⟩ <;>
    · ext x
      simp only [resolvePackages, List.mem_toFinset, mem_addPkgList, Finset.mem_union,
        List.not_mem_nil]
      tauto

/-- C9 (counterexample): rendering is not idempotent for every
file and every fixed variable context. With the context mapping
`a` to a value that itself contains placeholder syntax for `b`,
the first render of the file consisting of the placeholder for `a`
emits that syntax, and the second render substitutes it again,
producing different bytes. -/
theorem c9_counterexample :
    ¬ (render ctxNested (render ctxNested "\x7b\x7ba\x7d\x7d")
        = render ctxNested "\x7b\x7ba\x7d\x7d") := by
  decide

/-- C9 (amended): rendering is idempotent for every file whose
rendered output contains no remaining template-open syntax — in
particular whenever no variable value injects placeholder syntax —
because rendering is a structural no-op on such output. -/
theorem c9_render_idempotent_amended (ctx : List (String × String)) (s : String)
    (h : hasOpen (render ctx s).data = false) :
    render ctx (render ctx s) = render ctx s :=
  render_noop_of_plain ctx (render ctx s) h

/-- C9 (witness): a concrete rendered file with no remaining
template syntax renders to itself on the second pass. -/
theorem c9_witness :
    hasOpen (render ctxPlain "\x7b\x7bhostname\x7d\x7d").data = false
    ∧ render ctxPlain (render ctxPlain "\x7b\x7bhostname\x7d\x7d")
        = render ctxPlain "\x7b\x7bhostname\x7d\x7d" :=
  ⟨by decide, c9_render_idempotent_amended ctxPlain "\x7b\x7bhostname\x7d\x7d" (by decide)⟩

/-- C2: for every manifest and every requested flavor that is not a
key of its flavors mapping, flavor resolution fails with the
flavor-not-found error whose choices field is the complete list of
keys of the mapping, and every one of those keys occurs verbatim
in the rendered error message. -/
theorem c2_flavor_not_found_enumerates (flavors : List (String × FlavorVars))
    (requested : String) (h : requested ∉ flavors.map Prod.fst) :
    lookupFlavor flavors requested
      = Except.error (Err.flavorNotFound requested (flavors.map Prod.fst))
    ∧ ∀ c ∈ flavors.map Prod.fst, ∃ pre post,
        (errMessage (Err.flavorNotFound requested (flavors.map Prod.fst))).data
          = pre ++ c.data ++ post := by
  constructor
  · have hfind : flavors.find? (fun kv => kv.1 == requested) = none := by
      apply List.find?_eq_none.mpr
      intro kv hkv
      intro hEq
      simp only [beq_iff_eq] at hEq
      exact h (List.mem_map.mpr ⟨kv, hkv, hEq⟩)
    rw [lookupFlavor, hfind]
  · intro c hc
    rcases joinComma_contains hc with ⟨p, q, hpq⟩
    refine ⟨("Flavor with name " ++ requested ++ " not found. Choices are: ").data ++ p, q, ?_⟩
    simp [errMessage, hpq]

/-- C2 (witness): resolving the absent flavor `staging` against a
manifest with flavors `prod` and `dev` fails with the error listing
both. -/
theorem c2_witness :
    lookupFlavor [("prod", [("hostname", "web1")]), ("dev", [])] "staging"
      = Except.error (Err.flavorNotFound "staging" ["prod", "dev"]) :=
  (c2_flavor_not_found_enumerates [("prod", [("hostname", "web1")]), ("dev", [])]
    "staging" (by decide)).1

/-- C4: if the manifest names a package-list path and the file is
absent from the acquired source tree, the package stage fails with
the package-list-missing error, the error message names the
configured path, and the stage performs only the directory creation
and the failed open: in particular no package-fetch event is added
to the trace. -/
theorem c4_package_list_missing (args : Args) (w : World) (builds : Builds)
    (appName versionName : String) (t : List Ev) (p : String)
    (hp : builds.packages = some p) (hp2 : p ≠ "")
    (hf : w.packagesFile = none) :
    (stagePackages args w builds appName versionName t).2
      = Except.error (Err.packageListMissing p)
    ∧ (stagePackages args w builds appName versionName t).1
      = t ++ [Ev.mkdirPackages, Ev.openPackagesFile]
    ∧ (∀ q, Ev.pkgFetch q ∈ (stagePackages args w builds appName versionName t).1
        → Ev.pkgFetch q ∈ t)
    ∧ ∃ pre post, (errMessage (Err.packageListMissing p)).data = pre ++ p.data ++ post := by
  have htr : pyTruthy (some p) = true := by
    simp [pyTruthy, hp2]
  have hred : stagePackages args w builds appName versionName t
      = (t ++ [Ev.mkdirPackages, Ev.openPackagesFile],
         Except.error (Err.packageListMissing p)) := by
    simp [stagePackages, hp, htr, hf]
  refine ⟨by rw [hred], by rw [hred], ?_, ?_⟩
  · intro q hq
    rw [hred] at hq
    simpa using hq
  · refine ⟨("builds.yaml claimed there was a packages file named ").data,
      (" in the source code. There was not. Check the builds.yaml file to make sure the packages property has the correct file path, and check the source code to make sure that file exists.").data, ?_⟩
    simp [errMessage]

/-- C4 (witness): the missing `pkglist.txt` of end-to-end scenario
C aborts the package stage with only the mkdir and open events
performed. -/
theorem c4_witness :
    (stagePackages argsEx worldEx buildsPkgs "foo" "v1.2" []).2
      = Except.error (Err.packageListMissing "pkglist.txt")
    ∧ (stagePackages argsEx worldEx buildsPkgs "foo" "v1.2" []).1
      = [Ev.mkdirPackages, Ev.openPackagesFile] := by
  have h := c4_package_list_missing argsEx worldEx buildsPkgs "foo" "v1.2" []
    "pkglist.txt" rfl (by decide) rfl
  exact ⟨h.1, by simpa using h.2.1⟩

/-- C5: an in-place run over a working tree with uncommitted
changes and no force flag aborts with the dirty-working-tree error
right after the dirty check: no package-fetch event and no
package-directory creation ever occurs in the trace. -/
theorem c5_dirty_tree_aborts_early (args : Args) (w : World)
    (hip : args.inPlace = true) (hscheme : args.repoScheme = "file")
    (hacq : (if w.hasDotGit then w.fetchExit else w.cloneExit) = 0)
    (hdirty : w.dirtyExit ≠ 0) (hforce : args.force = false) :
    (pipeline args w).2 = Except.error Err.dirtyWorkingTree
    ∧ Ev.mkdirPackages ∉ (pipeline args w).1
    ∧ ∀ p, Ev.pkgFetch p ∉ (pipeline args w).1 := by
  have hred : pipeline args w
      = ((if w.hasDotGit then [Ev.gitFetch] else [Ev.gitClone]) ++ [Ev.dirtyCheck],
         Except.error Err.dirtyWorkingTree) := by
    cases hg : w.hasDotGit <;> rw [hg] at hacq <;> simp at hacq <;>
      simp [pipeline, stageDirty, hip, hscheme, hg, hacq, hdirty, hforce]
  refine ⟨by rw [hred], ?_, ?_⟩
  · rw [hred]
    cases w.hasDotGit <;> simp
  · intro p
    rw [hred]
    cases w.hasDotGit <;> simp

/-- C5 (witness): end-to-end scenario B at a concrete command line
and environment. -/
theorem c5_witness :
    (pipeline argsDirty worldDirty).2 = Except.error Err.dirtyWorkingTree
    ∧ Ev.mkdirPackages ∉ (pipeline argsDirty worldDirty).1
    ∧ Ev.pkgFetch "nginx" ∉ (pipeline argsDirty worldDirty).1 := by
  have h := c5_dirty_tree_aborts_early argsDirty worldDirty rfl rfl (by decide)
    (by decide) rfl
  exact ⟨h.1, h.2.1, h.2.2 "nginx"⟩

/-- C6: whenever the assembly stage runs (as it does in every
successful run), the archive event it performs uses the portable
ustar tar format and contains exactly the two entries, the rendered
OVF descriptor and the ISO, under the name built by `ovaName`; that
name is the positional prefix plus `.ova` when a prefix was given,
and application `foo`, flavor `bar`, explicit version `v1.2` with
no prefix yield `foo.bar.v1.2.ova`. -/
theorem c6_ova_two_entries_name (args : Args) (w : World) (builds : Builds)
    (appName versionName : String) (t : List Ev) :
    Ev.tarOva "ustar" (ovaName args.prefixArg appName args.flavorArg versionName)
        ["template.ovf", "iso.iso"]
      ∈ (stageAssemble args w builds appName versionName t).1
    ∧ ovaName none "foo" "bar" "v1.2" = "foo.bar.v1.2.ova"
    ∧ ∀ p : String, p ≠ "" →
        ovaName (some p) appName args.flavorArg versionName = p ++ ".ova" := by
  refine ⟨?_, by decide, ?_⟩
  · simp only [stageAssemble]
    split
    · split <;> simp
    · simp
  · intro p hp
    simp [ovaName, pyOr, hp]

/-- C6 (witness): the assembly stage of the concrete successful run
archives the descriptor and the ISO under `foo.bar.v1.2.ova`, and a
given prefix `myapp` names the artifact `myapp.ova`. -/
theorem c6_witness :
    Ev.tarOva "ustar" (ovaName argsEx.prefixArg "foo" argsEx.flavorArg "v1.2")
        ["template.ovf", "iso.iso"]
      ∈ (stageAssemble argsEx worldEx buildsEx "foo" "v1.2" []).1
    ∧ ovaName (some "myapp") "foo" argsEx.flavorArg "v1.2" = "myapp" ++ ".ova" := by
  have h := c6_ova_two_entries_name argsEx worldEx buildsEx "foo" "v1.2" []
  exact ⟨h.1, h.2.2 "myapp" (by decide)⟩

/-- C7: after the cleanup loop, the embedded copy of the working
tree contains no version-control metadata (.git), no manifest file
(builds.yaml), and, when an overlay path is configured, no overlay
directory. -/
theorem c7_embedded_cleanup (src : List String) (overlayCfg : Option String) :
    ".git" ∉ cleanupEmbedded src overlayCfg
    ∧ "builds.yaml" ∉ cleanupEmbedded src overlayCfg
    ∧ ∀ o, overlayCfg = some o → o ≠ "" → o ∉ cleanupEmbedded src overlayCfg := by
  refine ⟨?_, ?_, ?_⟩
  · intro hmem
    have h2 := (List.mem_filter.mp hmem).2
    simp [deleteTargets] at h2
  · intro hmem
    have h2 := (List.mem_filter.mp hmem).2
    simp [deleteTargets] at h2
  · intro o ho hne hmem
    have h2 := (List.mem_filter.mp hmem).2
    have hany : (deleteTargets overlayCfg).any
        (fun d => o == d || (d ++ "/").data.isPrefixOf o.data) = true := by
      apply List.any_eq_true.mpr
      refine ⟨o, ?_, ?_⟩
      · rw [ho]
        simp [deleteTargets, pyTruthy, hne]
      · simp
    rw [hany] at h2
    simp at h2

/-- C7 (witness): a concrete embedded tree with a configured
overlay `custom` retains neither `.git` nor `custom`. -/
theorem c7_witness :
    ".git" ∉ cleanupEmbedded [".git", "builds.yaml", "custom", "src/main.py"] (some "custom")
    ∧ "custom" ∉ cleanupEmbedded [".git", "builds.yaml", "custom", "src/main.py"]
        (some "custom") := by
  have h := c7_embedded_cleanup [".git", "builds.yaml", "custom", "src/main.py"] (some "custom")
  exact ⟨h.1, h.2.2 "custom" rfl (by decide)⟩

/-- C8: for every relative path defined in both the base
customfiles tree and the configured overlay, the final rendered
tree holds the render of the overlay content at that path, not the
base content. -/
theorem c8_overlay_precedence (ctx base overlay : List (String × String))
    (p cb co : String) (hb : lookupTree base p = some cb)
    (ho : lookupTree overlay p = some co) :
    renderedTree ctx base overlay p = some (render ctx co) := by
  simp [renderedTree, mergeTree, ho]

/-- C8 (witness): a path present in both trees renders to the
overlay content. -/
theorem c8_witness :
    renderedTree [] [("etc/motd", "base content")] [("etc/motd", "overlay content")]
        "etc/motd"
      = some (render [] "overlay content") :=
  c8_overlay_precedence [] [("etc/motd", "base content")] [("etc/motd", "overlay content")]
    "etc/motd" "base content" "overlay content" (by decide) (by decide)

/-- C10: when the ISO-retention flag is set and no positional
prefix was supplied, the assembly stage ends in the TypeError of
`args.prefix + ".iso"`: the OVA is still archived under the
fallback name `<application>.<flavor>.<version>.ova`, but no
ISO-preservation move is performed. -/
theorem c10_iso_requires_prefix_arg (args : Args) (w : World) (builds : Builds)
    (appName versionName : String) (t : List Ev)
    (hiso : args.isoFlag = true) (hpre : args.prefixArg = none) :
    (stageAssemble args w builds appName versionName t).2
      = Except.error Err.isoPrefixTypeError
    ∧ Ev.tarOva "ustar" (ovaName none appName args.flavorArg versionName)
        ["template.ovf", "iso.iso"]
      ∈ (stageAssemble args w builds appName versionName t).1
    ∧ ovaName none appName args.flavorArg versionName
        = String.intercalate "." [appName, args.flavorArg, versionName] ++ ".ova"
    ∧ ∀ n, Ev.mvIsoOut n ∈ (stageAssemble args w builds appName versionName t).1
        → Ev.mvIsoOut n ∈ t := by
  have hred : stageAssemble args w builds appName versionName t
      = ((t ++ [Ev.makedirsAppDir, Ev.cpAppSrc]
            ++ (deleteTargets builds.customfiles).map Ev.rmPath
            ++ (if w.mdExists then [] else [Ev.mdSetup])
            ++ [Ev.makeClean, Ev.rmIsos, Ev.renameAllDir, Ev.makeIso, Ev.mvIso,
              Ev.renderOvf "template.ovf",
              Ev.tarOva "ustar" (ovaName none appName args.flavorArg versionName)
                ["template.ovf", "iso.iso"]]),
         Except.error Err.isoPrefixTypeError) := by
    simp only [stageAssemble, hiso, hpre, if_true]
    cases w.mdExists <;> simp
  refine ⟨by rw [hred], ?_, by simp [ovaName, pyOr], ?_⟩
  · rw [hred]
    simp
  · intro n hn
    rw [hred] at hn
    simpa using hn

/-- C10 (witness): the concrete run with the ISO flag and no
prefix fails with the TypeError while still archiving the OVA. -/
theorem c10_witness :
    (stageAssemble argsIso worldEx buildsEx "foo" "v1.2" []).2
      = Except.error Err.isoPrefixTypeError
    ∧ Ev.tarOva "ustar" (ovaName none "foo" argsIso.flavorArg "v1.2")
        ["template.ovf", "iso.iso"]
      ∈ (stageAssemble argsIso worldEx buildsEx "foo" "v1.2" []).1 := by
  have h := c10_iso_requires_prefix_arg argsIso worldEx buildsEx "foo" "v1.2" [] rfl rfl
  exact ⟨h.1, h.2.1⟩

end Build
